import Mathlib

/-!
Shallow embedding of `src/gym/f110_gym/envs/rendering_pygame.py` (class
`EnvRenderer`) and proofs about it.

Modelling conventions:
* Python floats are rationals (`ℚ`), Python ints are integers (`ℤ`).
* A value stored in the `image_config` dict is a `PyVal`; Python exceptions
  are modelled by `Except PyError`.
* Library behaviour the code relies on is embedded explicitly where it is
  exercised: `cv2.imread` returns `None` when the file is missing or
  unreadable; `np.rot90` applied to `None` raises `ValueError` (a 0-d array
  is rejected by its axis check); numpy slice bounds are clamped into range;
  Python `int()` truncates toward zero; Python `/` raises
  `ZeroDivisionError` on a zero divisor and `TypeError` on `None` operands.
* Drawing is modelled as the trace of draw commands issued to pygame; an
  exception aborts the trace, keeping the commands already issued.
-/

namespace F110Render

/-- Exception kinds. The first six are what the embedded Python code can
actually raise; `mapLoadError`, `mapConfigError` and `notReadyError` are the
error names postulated by the specification, present only so theorems can
compare what the code raises against what the specification names. -/
inductive PyError where
  | typeError
  | valueError
  | fileNotFoundError
  | indexError
  | zeroDivisionError
  | attributeError
  | mapLoadError
  | mapConfigError
  | notReadyError
  deriving DecidableEq, Repr

/-- Values stored in the `image_config` dict: Python `None`, a float, a bool,
or the 3-element `origin` list. -/
inductive PyVal where
  | pnone
  | num (q : ℚ)
  | boolv (b : Bool)
  | triple (a b c : PyVal)
  deriving DecidableEq, Repr

/-- Keys of the `image_config` dict as initialised in `EnvRenderer.__init__`.
Only these five keys are ever read by the renderer. -/
inductive ConfigKey where
  | resolution
  | origin
  | negate
  | occupied_thresh
  | free_thresh
  deriving DecidableEq, Repr

/-- The `image_config` dict, total over its five initialised keys. -/
def ImageConfig : Type := ConfigKey → PyVal

/-- The dict initialised in `__init__`: every key maps to `None`, except
`origin` which maps to the list `[None, None, None]`. -/
def initialConfig : ImageConfig := fun k =>
  match k with
  | ConfigKey.origin => PyVal.triple PyVal.pnone PyVal.pnone PyVal.pnone
  | _ => PyVal.pnone

/-- Python `int()` on a float: truncation toward zero. -/
def pyInt (q : ℚ) : ℤ := if 0 ≤ q then ⌊q⌋ else ⌈q⌉

/-- Numeric coercion performed by Python arithmetic on a dict value: floats
pass through, bools coerce to 0 or 1, `None` and lists raise `TypeError`. -/
def asNum : PyVal → Except PyError ℚ
  | PyVal.num q => Except.ok q
  | PyVal.boolv b => Except.ok (if b then 1 else 0)
  | _ => Except.error PyError.typeError

/-- Python true division: `ZeroDivisionError` on a zero divisor. -/
def pyDiv (a b : ℚ) : Except PyError ℚ :=
  if b = 0 then Except.error PyError.zeroDivisionError else Except.ok (a / b)

/-- Subscript `origin[i]` (`i < 3`): raises `TypeError` when the `origin`
entry is not the 3-element list (for instance when it is still `None`). -/
def originComp (c : ImageConfig) (i : ℕ) : Except PyError PyVal :=
  match c ConfigKey.origin with
  | PyVal.triple a b cc => Except.ok (if i = 0 then a else if i = 1 then b else cc)
  | _ => Except.error PyError.typeError

/-- Exception propagation: run `x`, feed its value to `f`, abort on error.
This is the sequencing used to embed straight-line Python statements. -/
def andThen {α β : Type} (x : Except PyError α) (f : α → Except PyError β) :
    Except PyError β :=
  match x with
  | Except.error e => Except.error e
  | Except.ok a => f a

/-- `EnvRenderer.m_to_pixel_image`: world metres to image pixel,
`(int((x - origin[0]) / resolution), int((y - origin[1]) / resolution))`,
with Python's evaluation order for the failure cases. -/
def m_to_pixel_image (c : ImageConfig) (xy : ℚ × ℚ) : Except PyError (ℤ × ℤ) :=
  andThen (originComp c 0) fun o0 =>
  andThen (asNum o0) fun ox =>
  andThen (asNum (c ConfigKey.resolution)) fun res =>
  andThen (pyDiv (xy.1 - ox) res) fun qx =>
  andThen (originComp c 1) fun o1 =>
  andThen (asNum o1) fun oy =>
  andThen (pyDiv (xy.2 - oy) res) fun qy =>
  Except.ok (pyInt qx, pyInt qy)

/-- `EnvRenderer.pixel_image_to_m`: image pixel to world metres,
`(x * resolution + origin[0], y * resolution + origin[1])`. -/
def pixel_image_to_m (c : ImageConfig) (xy : ℤ × ℤ) : Except PyError (ℚ × ℚ) :=
  andThen (asNum (c ConfigKey.resolution)) fun res =>
  andThen (originComp c 0) fun o0 =>
  andThen (asNum o0) fun ox =>
  andThen (originComp c 1) fun o1 =>
  andThen (asNum o1) fun oy =>
  Except.ok ((xy.1 : ℚ) * res + ox, (xy.2 : ℚ) * res + oy)

/-- Map configuration of the specification's example scenario:
resolution `0.05`, origin `(-10, -10, 0)`. -/
def exampleConfig : ImageConfig := fun k =>
  match k with
  | ConfigKey.resolution => PyVal.num (1 / 20)
  | ConfigKey.origin =>
      PyVal.triple (PyVal.num (-10)) (PyVal.num (-10)) (PyVal.num 0)
  | _ => PyVal.pnone

/-- The track image after loading, abstracted to its two pixel dimensions
(`shape[0]` and `shape[1]` of the numpy array). Pixel contents play no role
in any verified property. -/
structure Image where
  shape0 : ℕ
  shape1 : ℕ
  deriving DecidableEq, Repr

/-- The pixel sub-rectangle selected by `get_map_given_the_center_in_m`:
the four slice arguments of `track_image[left:right, top:bottom]` after the
max/min clamps, plus the centre assigned to the blit rect. -/
structure Region where
  left : ℤ
  right : ℤ
  top : ℤ
  bottom : ℤ
  rectCenter : ℤ × ℤ
  deriving DecidableEq, Repr

/-- State of an `EnvRenderer` instance: the fields touched by the embedded
methods. `m_focus` is `none` while it still holds the initial
`(None, None)` pair. `track_surf` abstracts the pygame surface made from the
selected sub-rectangle to the rectangle itself. -/
structure RendererState where
  half_width : ℤ
  half_height : ℤ
  image_config : ImageConfig
  m_focus : Option (ℚ × ℚ)
  track_image : Option Image
  track_surf : Option Region
  wasd_tick_move : ℚ

/-- `EnvRenderer.__init__(width, height)`: `half_width = width // 2`,
`half_height = height // 2` (Python floor division), all map state unset,
pan step 5 metres. The pyglet-style camera fields are write-only and the
pygame display/font handles carry no verified state, so they are omitted. -/
def initRenderer (width height : ℤ) : RendererState :=
  { half_width := Int.fdiv width 2
    half_height := Int.fdiv height 2
    image_config := initialConfig
    m_focus := none
    track_image := none
    track_surf := none
    wasd_tick_move := 5 }

/-- `EnvRenderer.m_to_pixel_window`: world metres to window pixel,
`(int((x - m_focus[0]) / resolution) + half_width, ...)`. While `m_focus`
still holds `(None, None)` the subtraction raises `TypeError`. -/
def m_to_pixel_window (s : RendererState) (xy : ℚ × ℚ) :
    Except PyError (ℤ × ℤ) :=
  match s.m_focus with
  | none => Except.error PyError.typeError
  | some f =>
      andThen (asNum (s.image_config ConfigKey.resolution)) fun res =>
      andThen (pyDiv (xy.1 - f.1) res) fun qx =>
      andThen (pyDiv (xy.2 - f.2) res) fun qy =>
      Except.ok (pyInt qx + s.half_width, pyInt qy + s.half_height)

/-- Normalisation a numpy slice bound undergoes for an axis of length `len`:
a negative index counts from the end and the result is clamped into
`[0, len]`. -/
def sliceBound (len : ℕ) (i : ℤ) : ℕ :=
  if i < 0 then ((len : ℤ) + i).toNat else min i.toNat len

/-- Core of `EnvRenderer.get_map_given_the_center_in_m`, after the focus has
been converted to image pixels `(fpx, fpy)`: the clamped slice arguments, the
four `add_on_the_*` compensation terms (Python true division, so rationals),
and the centre assigned to `track_surf_rect`. -/
def get_map_core (s0 s1 : ℕ) (hw hh fpx fpy : ℤ) : Region :=
  let left := max (fpx - hw) 0
  let add_on_the_left : ℚ := ((hw : ℚ) - ((fpx : ℚ) - (left : ℚ))) / 2
  let right := min (fpx + hw) (s0 : ℤ)
  let add_on_the_right : ℚ := ((hw : ℚ) - ((right : ℚ) - (fpx : ℚ))) / 2
  let top := max (fpy - hh) 0
  let add_on_the_top : ℚ := ((hh : ℚ) - ((fpy : ℚ) - (top : ℚ))) / 2
  let bottom := min (fpy + hh) (s1 : ℤ)
  let add_on_the_bottom : ℚ := ((hh : ℚ) - ((bottom : ℚ) - (fpy : ℚ))) / 2
  { left := left
    right := right
    top := top
    bottom := bottom
    rectCenter :=
      (pyInt ((hw : ℚ) + add_on_the_left - add_on_the_right),
       pyInt ((hh : ℚ) + add_on_the_top - add_on_the_bottom)) }

/-- `EnvRenderer.get_map_given_the_center_in_m(center)`: convert the focus to
image pixels (this is where an unpopulated config raises `TypeError`), read
`track_image.shape` (`AttributeError` when `track_image` is still `None`),
and store the selected sub-rectangle in `track_surf`/`track_surf_rect`. -/
def get_map_given_the_center_in_m (s : RendererState) (center : ℚ × ℚ) :
    Except PyError RendererState :=
  andThen (m_to_pixel_image s.image_config center) fun fpx =>
  andThen (match s.track_image with
           | some img => Except.ok img
           | none => Except.error PyError.attributeError) fun img =>
  Except.ok
    { s with
      track_surf := some (get_map_core img.shape0 img.shape1
        s.half_width s.half_height fpx.1 fpx.2) }

/-- The two files `update_map` reads, as the renderer observes them:
`image` is the result of `cv2.imread(map_path + map_ext)` (`none` when the
file is missing or unreadable, since `imread` returns `None` instead of
raising); `yaml` is the parsed content of `map_path + ".yaml"` as the list of
key/value pairs iterated by `for key in yaml_content` (`none` when the yaml
file is missing, in which case `open` raises `FileNotFoundError`). Only the
five config keys the renderer ever reads are modelled. -/
structure MapFiles where
  image : Option Image
  yaml : Option (List (ConfigKey × PyVal))

/-- An image's shape after `np.rot90(img, k=3)`: the first two axes swap
lengths. Applied to `None` (a 0-d array after `asanyarray`), `np.rot90`
raises `ValueError` from its axis range check. -/
def rot90k3 : Option Image → Except PyError Image
  | some img => Except.ok { shape0 := img.shape1, shape1 := img.shape0 }
  | none => Except.error PyError.valueError

/-- The loop `for key in yaml_content: self.image_config[key] = yaml_content[key]`:
each key present in the yaml overwrites that entry of the dict. -/
def updateConfig (c : ImageConfig) (y : List (ConfigKey × PyVal)) : ImageConfig :=
  y.foldl (fun acc kv => fun k => if k = kv.1 then kv.2 else acc k) c

/-- `EnvRenderer.update_map(map_path, map_ext)`: read and rotate the image,
read the yaml and merge it into `image_config`, reset the focus to world
`(0, 0)`, and recompute the visible region. No validation of the yaml's
fields is performed. -/
def update_map (s : RendererState) (files : MapFiles) :
    Except PyError RendererState :=
  andThen (rot90k3 files.image) fun img =>
  andThen (match files.yaml with
           | some y => Except.ok y
           | none => Except.error PyError.fileNotFoundError) fun y =>
  get_map_given_the_center_in_m
    { s with
      track_image := some img
      image_config := updateConfig s.image_config y
      m_focus := some (0, 0) }
    (0, 0)

/-- Python sequence indexing `xs[i]` for a non-negative index: raises
`IndexError` past the end. -/
def listGet : List ℚ → ℕ → Except PyError ℚ
  | [], _ => Except.error PyError.indexError
  | x :: _, 0 => Except.ok x
  | _ :: xs, n + 1 => listGet xs n

/-- Observation dict supplied by the gym environment each frame. -/
structure Obs where
  ego_idx : ℕ
  poses_x : List ℚ
  poses_y : List ℚ
  poses_theta : List ℚ
  lap_times : List ℚ
  lap_counts : List ℚ

/-- `EnvRenderer.render_text_about_laps_and_time(obs)`: the two numbers put
into the rendered string, namely `obs['lap_times'][0]` and
`obs['lap_counts'][obs['ego_idx']]`. The blit position depends only on font
metrics and the window size, not on the observation. -/
def render_text_about_laps_and_time (obs : Obs) : Except PyError (ℚ × ℚ) :=
  andThen (listGet obs.lap_times 0) fun t =>
  andThen (listGet obs.lap_counts obs.ego_idx) fun c =>
  Except.ok (t, c)

/-- One drawing command issued to pygame during `update_obs`. -/
inductive DrawCmd where
  | fill (color : ℕ × ℕ × ℕ)
  | blitTrack (r : Region)
  | callback (i : ℕ)
  | circle (color : ℕ × ℕ × ℕ) (center : ℤ × ℤ) (radius : ℕ)
  | lapText (time count : ℚ)

/-- The vehicle loop of `update_obs`: for each `agent_i` in
`range(num_agents)` choose red for the ego index and green otherwise, then
draw a radius-5 circle at `m_to_pixel_window((poses_x[0], poses_y[0]))` —
the subscript is the literal constant 0 in the source, not `agent_i`. An
exception aborts the loop, keeping the circles already drawn. -/
def drawAgentsAux (s : RendererState) (obs : Obs) :
    List ℕ → List DrawCmd × Option PyError
  | [] => ([], none)
  | i :: rest =>
      let color : ℕ × ℕ × ℕ := if i = obs.ego_idx then (255, 0, 0) else (0, 255, 0)
      match andThen (listGet obs.poses_x 0) fun x0 =>
            andThen (listGet obs.poses_y 0) fun y0 =>
            m_to_pixel_window s (x0, y0) with
      | Except.error e => ([], some e)
      | Except.ok p =>
          let tail := drawAgentsAux s obs rest
          (DrawCmd.circle color p 5 :: tail.1, tail.2)

/-- `EnvRenderer.update_obs(obs, render_callbacks)`: the trace of drawing
commands, paired with the exception aborting the frame if one is raised.
Order: clear screen, blit the track surface (`TypeError` from
`screen.blit(None, None)` before any map is loaded), run the render
callbacks (opaque external hooks, recorded by position), draw the vehicle
circles, draw the blue origin marker at `(half_width, half_height)`, render
the lap text, present. -/
def update_obs (s : RendererState) (obs : Obs) (ncallbacks : ℕ) :
    List DrawCmd × Option PyError :=
  match s.track_surf with
  | none => ([DrawCmd.fill (0, 0, 0)], some PyError.typeError)
  | some r =>
      let base := DrawCmd.fill (0, 0, 0) :: DrawCmd.blitTrack r ::
        (List.range ncallbacks).map DrawCmd.callback
      match drawAgentsAux s obs (List.range obs.poses_x.length) with
      | (cmds, some e) => (base ++ cmds, some e)
      | (cmds, none) =>
          let base2 := base ++ cmds ++
            [DrawCmd.circle (0, 0, 255) (s.half_width, s.half_height) 5]
          match render_text_about_laps_and_time obs with
          | Except.error e => (base2, some e)
          | Except.ok tc => (base2 ++ [DrawCmd.lapText tc.1 tc.2], none)

/-- Pygame events relevant to `check_keys`: the window-close event, the four
pan keys, and anything else (ignored). -/
inductive Event where
  | quit
  | keyW
  | keyA
  | keyS
  | keyD
  | other

/-- Shift the focus by `(dx, dy)` and recompute the visible region, as the
four `KEYDOWN` branches of `check_keys` do. While `m_focus` still holds
`(None, None)` the arithmetic on its components raises `TypeError`. -/
def panFocus (s : RendererState) (dx dy : ℚ) : Except PyError RendererState :=
  match s.m_focus with
  | none => Except.error PyError.typeError
  | some f =>
      let f2 : ℚ × ℚ := (f.1 + dx, f.2 + dy)
      get_map_given_the_center_in_m { s with m_focus := some f2 } f2

/-- `EnvRenderer.check_keys()`: drain the pending event queue, set the quit
flag on a window-close event, pan on w/a/s/d (w decreases y, a decreases x,
s increases y, d increases x), and return the quit flag. -/
def check_keys (s : RendererState) (events : List Event) :
    Except PyError (Bool × RendererState) :=
  events.foldlM
    (fun acc ev =>
      match ev with
      | Event.quit => Except.ok (true, acc.2)
      | Event.keyW =>
          andThen (panFocus acc.2 0 (-acc.2.wasd_tick_move)) fun s2 =>
          Except.ok (acc.1, s2)
      | Event.keyA =>
          andThen (panFocus acc.2 (-acc.2.wasd_tick_move) 0) fun s2 =>
          Except.ok (acc.1, s2)
      | Event.keyS =>
          andThen (panFocus acc.2 0 acc.2.wasd_tick_move) fun s2 =>
          Except.ok (acc.1, s2)
      | Event.keyD =>
          andThen (panFocus acc.2 acc.2.wasd_tick_move 0) fun s2 =>
          Except.ok (acc.1, s2)
      | Event.other => Except.ok acc)
    (false, s)

/-- A populated map config with resolution 1 m/px and origin (0, 0, 0),
used in concrete scenarios. -/
def readyConfig : ImageConfig := fun k =>
  match k with
  | ConfigKey.resolution => PyVal.num 1
  | ConfigKey.origin => PyVal.triple (PyVal.num 0) (PyVal.num 0) (PyVal.num 0)
  | _ => PyVal.pnone

/-- The visible region of a 400 by 400 track image around focus pixel
(0, 0) for a 200 by 200 window. -/
def readyRegion : Region := get_map_core 400 400 100 100 0 0

/-- A renderer state as it stands after a successful map load: 200 by 200
window, `readyConfig`, focus at the world origin, a 400 by 400 track image
and its selected region. -/
def readyState : RendererState :=
  { half_width := 100
    half_height := 100
    image_config := readyConfig
    m_focus := some (0, 0)
    track_image := some ⟨400, 400⟩
    track_surf := some readyRegion
    wasd_tick_move := 5 }

/-- Observation with two agents — ego agent 0 at world (0, 0), agent 1 at
world (7, 9) — exercising the vehicle-drawing loop. -/
def obs2 : Obs :=
  { ego_idx := 0
    poses_x := [0, 7]
    poses_y := [0, 9]
    poses_theta := [0, 0]
    lap_times := [1, 2]
    lap_counts := [0, 0] }

/-- Observation whose ego index is 1, with distinct per-agent lap times,
exercising the lap-text indexing. -/
def obs6 : Obs :=
  { ego_idx := 1
    poses_x := [0, 0]
    poses_y := [0, 0]
    poses_theta := [0, 0]
    lap_times := [3, 5]
    lap_counts := [1, 2] }

/-- Observation with zero agents: every per-agent sequence is empty. -/
def obsE : Obs :=
  { ego_idx := 0
    poses_x := []
    poses_y := []
    poses_theta := []
    lap_times := []
    lap_counts := [] }

/-- Map files for a second load whose yaml sets only `negate`. -/
def mapFiles2 : MapFiles :=
  { image := some ⟨50, 60⟩
    yaml := some [(ConfigKey.negate, PyVal.num 0)] }

@[simp] theorem andThen_ok {α β : Type} (a : α) (f : α → Except PyError β) :
    andThen (Except.ok a) f = f a := rfl

@[simp] theorem andThen_error {α β : Type} (e : PyError)
    (f : α → Except PyError β) :
    andThen (Except.error e) f = Except.error e := rfl

theorem pyInt_eq_floor {q : ℚ} (h : 0 ≤ q) : pyInt q = ⌊q⌋ := by
  simp [pyInt, h]

/-- Evaluation of `m_to_pixel_image` on a config whose resolution and origin
fields are populated with numbers and whose resolution is non-zero. -/
theorem m_to_pixel_image_eq (c : ImageConfig) (res ox oy : ℚ) (v : PyVal)
    (x y : ℚ)
    (hres : c ConfigKey.resolution = PyVal.num res)
    (horg : c ConfigKey.origin = PyVal.triple (PyVal.num ox) (PyVal.num oy) v)
    (h0 : res ≠ 0) :
    m_to_pixel_image c (x, y) =
      Except.ok (pyInt ((x - ox) / res), pyInt ((y - oy) / res)) := by
  simp [m_to_pixel_image, originComp, asNum, pyDiv, hres, horg, h0]

/-- Evaluation of `pixel_image_to_m` on a populated config. -/
theorem pixel_image_to_m_eq (c : ImageConfig) (res ox oy : ℚ) (v : PyVal)
    (px py : ℤ)
    (hres : c ConfigKey.resolution = PyVal.num res)
    (horg : c ConfigKey.origin = PyVal.triple (PyVal.num ox) (PyVal.num oy) v) :
    pixel_image_to_m c (px, py) =
      Except.ok ((px : ℚ) * res + ox, (py : ℚ) * res + oy) := by
  simp [pixel_image_to_m, originComp, asNum, hres, horg]

theorem listGet_eq_ok {l : List ℚ} {n : ℕ} {v : ℚ}
    (h : listGet l n = Except.ok v) : l.get? n = some v := by
  induction l generalizing n with
  | nil => simp [listGet] at h
  | cons x xs ih =>
      cases n with
      | zero =>
          simp [listGet] at h
          simp [h]
      | succ n => simpa [listGet] using ih (n := n) h

/-- A normalised numpy slice bound never exceeds the axis length. -/
theorem sliceBound_le (len : ℕ) (i : ℤ) : sliceBound len i ≤ len := by
  unfold sliceBound
  split <;> omega

/-- A key absent from the yaml is untouched by the config-merging loop. -/
theorem updateConfig_not_mem (c : ImageConfig) (y : List (ConfigKey × PyVal))
    (k : ConfigKey) (hk : k ∉ y.map Prod.fst) :
    updateConfig c y k = c k := by
  induction y generalizing c with
  | nil => rfl
  | cons kv rest ih =>
      simp only [List.map_cons, List.mem_cons, not_or] at hk
      unfold updateConfig
      simp only [List.foldl_cons]
      have := ih (fun k2 => if k2 = kv.1 then kv.2 else c k2) hk.2
      unfold updateConfig at this
      rw [this]
      simp [hk.1]

/-- Truncation error of the world-to-pixel-to-world round trip along one
axis, for a point on the non-negative side of the origin. -/
theorem pyInt_roundtrip_err (res o t : ℚ) (h0 : 0 < res) (ht : 0 ≤ t - o) :
    0 ≤ t - ((pyInt ((t - o) / res) : ℚ) * res + o) ∧
    t - ((pyInt ((t - o) / res) : ℚ) * res + o) < res := by
  set q : ℚ := (t - o) / res with hq
  have hqnn : 0 ≤ q := div_nonneg ht h0.le
  rw [pyInt_eq_floor hqnn]
  have hmul : q * res = t - o := div_mul_cancel₀ _ (ne_of_gt h0)
  have hkey : t - (((⌊q⌋ : ℤ) : ℚ) * res + o) = (q - (⌊q⌋ : ℚ)) * res := by
    rw [sub_mul, hmul]
    ring
  rw [hkey]
  have hfl : ((⌊q⌋ : ℤ) : ℚ) ≤ q := Int.floor_le q
  have hfu : q < (⌊q⌋ : ℚ) + 1 := Int.lt_floor_add_one q
  constructor
  · exact mul_nonneg (by linarith) h0.le
  · have : (q - (⌊q⌋ : ℚ)) * res < 1 * res :=
      mul_lt_mul_of_pos_right (by linarith) h0
    linarith

/-- Claim C1: for every map config with non-zero (positive) resolution and
numeric origin, and every world point in the map's valid world extent,
`m_to_pixel_image` followed by `pixel_image_to_m` returns the original point
to within one pixel's worth of resolution error. -/
theorem C1_transforms_mutual_inverses (c : ImageConfig) (res ox oy : ℚ)
    (v : PyVal) (W H : ℕ) (x y : ℚ)
    (hres : c ConfigKey.resolution = PyVal.num res)
    (horg : c ConfigKey.origin = PyVal.triple (PyVal.num ox) (PyVal.num oy) v)
    (h0 : 0 < res)
    (hx0 : 0 ≤ x - ox) (hxW : x - ox < res * W)
    (hy0 : 0 ≤ y - oy) (hyH : y - oy < res * H) :
    ∃ px py x2 y2,
      m_to_pixel_image c (x, y) = Except.ok (px, py) ∧
      pixel_image_to_m c (px, py) = Except.ok (x2, y2) ∧
      0 ≤ x - x2 ∧ x - x2 < res ∧ 0 ≤ y - y2 ∧ y - y2 < res := by
  have hne : res ≠ 0 := ne_of_gt h0
  refine ⟨pyInt ((x - ox) / res), pyInt ((y - oy) / res),
    (pyInt ((x - ox) / res) : ℚ) * res + ox,
    (pyInt ((y - oy) / res) : ℚ) * res + oy,
    m_to_pixel_image_eq c res ox oy v x y hres horg hne,
    pixel_image_to_m_eq c res ox oy v _ _ hres horg,
    (pyInt_roundtrip_err res ox x h0 hx0).1,
    (pyInt_roundtrip_err res ox x h0 hx0).2,
    (pyInt_roundtrip_err res oy y h0 hy0).1,
    (pyInt_roundtrip_err res oy y h0 hy0).2⟩

/-- Witness for C1: the example map config (resolution 0.05, origin
(-10, -10, 0)), the world point (0, 0) and a 400 by 400 pixel map. -/
theorem C1_witness :
    (0 : ℚ) < 1 / 20 ∧
    (∃ px py x2 y2,
      m_to_pixel_image exampleConfig (0, 0) = Except.ok (px, py) ∧
      pixel_image_to_m exampleConfig (px, py) = Except.ok (x2, y2) ∧
      0 ≤ (0 : ℚ) - x2 ∧ (0 : ℚ) - x2 < 1 / 20 ∧
      0 ≤ (0 : ℚ) - y2 ∧ (0 : ℚ) - y2 < 1 / 20) :=
  ⟨by norm_num,
   C1_transforms_mutual_inverses exampleConfig (1 / 20) (-10) (-10)
     (PyVal.num 0) 400 400 0 0 rfl rfl (by norm_num) (by norm_num)
     (by norm_num) (by norm_num) (by norm_num)⟩

/-- Claim C5: `m_to_pixel_image` is the pure function
`((x - origin.x)/resolution, (y - origin.y)/resolution)` truncated to
integers, and on the example config (resolution 0.05, origin (-10, -10, 0))
it maps (0, 0) to (200, 200), whose image under `pixel_image_to_m` is
exactly (0, 0). -/
theorem C5_world_to_pixel_formula :
    (∀ (c : ImageConfig) (res ox oy : ℚ) (v : PyVal) (x y : ℚ),
      c ConfigKey.resolution = PyVal.num res →
      c ConfigKey.origin = PyVal.triple (PyVal.num ox) (PyVal.num oy) v →
      res ≠ 0 →
      m_to_pixel_image c (x, y) =
        Except.ok (pyInt ((x - ox) / res), pyInt ((y - oy) / res))) ∧
    m_to_pixel_image exampleConfig (0, 0) = Except.ok (200, 200) ∧
    pixel_image_to_m exampleConfig (200, 200) = Except.ok (0, 0) := by
  refine ⟨fun c res ox oy v x y hres horg h0 =>
    m_to_pixel_image_eq c res ox oy v x y hres horg h0, ?_, ?_⟩
  · rw [m_to_pixel_image_eq exampleConfig (1 / 20) (-10) (-10) (PyVal.num 0)
      0 0 rfl rfl (by norm_num)]
    norm_num [pyInt]
  · rw [pixel_image_to_m_eq exampleConfig (1 / 20) (-10) (-10) (PyVal.num 0)
      200 200 rfl rfl]
    norm_num

/-- Witness for C5: the universally quantified part applied to the example
config at the world point (3, 4). -/
theorem C5_witness :
    m_to_pixel_image exampleConfig (3, 4) =
      Except.ok (pyInt ((3 - -10) / (1 / 20)), pyInt ((4 - -10) / (1 / 20))) :=
  C5_world_to_pixel_formula.1 exampleConfig (1 / 20) (-10) (-10) (PyVal.num 0)
    3 4 rfl rfl (by norm_num)

/-- Claim C3: every pixel requested by the sub-rectangle that
`get_map_given_the_center_in_m` selects (the numpy slice
`track_image[left:right, top:bottom]`, with numpy's bound normalisation)
lies inside the image, whatever the image size, window half-extents and
focus pixel are. -/
theorem C3_region_in_bounds (s0 s1 : ℕ) (hw hh fpx fpy : ℤ) (i j : ℕ)
    (hi1 : sliceBound s0 (get_map_core s0 s1 hw hh fpx fpy).left ≤ i)
    (hi2 : i < sliceBound s0 (get_map_core s0 s1 hw hh fpx fpy).right)
    (hj1 : sliceBound s1 (get_map_core s0 s1 hw hh fpx fpy).top ≤ j)
    (hj2 : j < sliceBound s1 (get_map_core s0 s1 hw hh fpx fpy).bottom) :
    i < s0 ∧ j < s1 :=
  ⟨lt_of_lt_of_le hi2 (sliceBound_le s0 _),
   lt_of_lt_of_le hj2 (sliceBound_le s1 _)⟩

/-- Witness for C3: a 100 by 100 map, half-extents 10, focus pixel
(50, 50), and the requested pixel (40, 40). -/
theorem C3_witness :
    (sliceBound 100 (get_map_core 100 100 10 10 50 50).left ≤ 40 ∧
     40 < sliceBound 100 (get_map_core 100 100 10 10 50 50).right ∧
     sliceBound 100 (get_map_core 100 100 10 10 50 50).top ≤ 40 ∧
     40 < sliceBound 100 (get_map_core 100 100 10 10 50 50).bottom) ∧
    (40 < 100 ∧ 40 < 100) :=
  ⟨⟨by decide, by decide, by decide, by decide⟩,
   C3_region_in_bounds 100 100 10 10 50 50 40 40
     (by decide) (by decide) (by decide) (by decide)⟩

/-- Counterexample to claim C4: a 100 by 100 map with window half-width 10
(so the map is at least 2*hw wide) and focus pixel (5, 50), whose naive
window extends 5 pixels past pixel 0: the selected region is 15 pixels
wide, not 2*hw = 20. -/
theorem C4_counterexample :
    2 * 10 ≤ (100 : ℤ) ∧ (5 : ℤ) - 10 < 0 ∧
    (get_map_core 100 100 10 10 5 50).right -
      (get_map_core 100 100 10 10 5 50).left = 15 ∧
    ¬ ((get_map_core 100 100 10 10 5 50).right -
        (get_map_core 100 100 10 10 5 50).left = 2 * 10) := by
  refine ⟨by decide, by decide, by decide, by decide⟩

/-- Amended claim C4: when the focus is within `hw` of the left image edge
(and on the map), the selected region is the intersection of the naive
window with the image: it is shrunk to width `fpx + hw`, strictly less than
`2*hw`; the window shortfall is compensated by offsetting the blit
rectangle, not by shifting the selected region. -/
theorem C4_amended_region_shrunk (s0 s1 : ℕ) (hw hh fpx fpy : ℤ)
    (hmap : 2 * hw ≤ (s0 : ℤ)) (hf0 : 0 ≤ fpx) (hedge : fpx < hw) :
    (get_map_core s0 s1 hw hh fpx fpy).right -
      (get_map_core s0 s1 hw hh fpx fpy).left = fpx + hw ∧
    (get_map_core s0 s1 hw hh fpx fpy).right -
      (get_map_core s0 s1 hw hh fpx fpy).left < 2 * hw := by
  simp only [get_map_core]
  omega

/-- Witness for the amended claim C4: the same concrete scene as the
counterexample. -/
theorem C4_witness :
    (2 * 10 ≤ ((100 : ℕ) : ℤ) ∧ (0 : ℤ) ≤ 5 ∧ (5 : ℤ) < 10) ∧
    ((get_map_core 100 100 10 10 5 50).right -
       (get_map_core 100 100 10 10 5 50).left = 5 + 10 ∧
     (get_map_core 100 100 10 10 5 50).right -
       (get_map_core 100 100 10 10 5 50).left < 2 * 10) :=
  ⟨⟨by decide, by decide, by decide⟩,
   C4_amended_region_shrunk 100 100 10 10 5 50 (by decide) (by decide)
     (by decide)⟩

/-- Recomputing the visible region never changes the map config. -/
theorem get_map_preserves_config (s : RendererState) (center : ℚ × ℚ)
    (s2 : RendererState)
    (h : get_map_given_the_center_in_m s center = Except.ok s2) :
    s2.image_config = s.image_config := by
  unfold get_map_given_the_center_in_m at h
  cases hm : m_to_pixel_image s.image_config center with
  | error e => rw [hm] at h; simp at h
  | ok fpx =>
      rw [hm] at h
      cases hti : s.track_image with
      | none => rw [hti] at h; simp at h
      | some img =>
          rw [hti] at h
          simp at h
          subst h
          rfl

/-- After a successful `update_map` the config is the old config merged
with the yaml content. -/
theorem update_map_config (s : RendererState) (files : MapFiles)
    (y : List (ConfigKey × PyVal)) (s2 : RendererState)
    (hy : files.yaml = some y) (h : update_map s files = Except.ok s2) :
    s2.image_config = updateConfig s.image_config y := by
  unfold update_map at h
  cases hi : files.image with
  | none => rw [hi] at h; simp [rot90k3] at h
  | some img =>
      rw [hi, hy] at h
      simp only [rot90k3, andThen_ok] at h
      have h2 := get_map_preserves_config _ _ _ h
      rw [h2]

/-- With the `resolution` entry still `None`, converting any world point to
image pixels raises `TypeError` (either on `origin[0]` or on the division),
whatever the `origin` entry holds. -/
theorem m_to_pixel_image_res_unset (c : ImageConfig) (xy : ℚ × ℚ)
    (h : c ConfigKey.resolution = PyVal.pnone) :
    m_to_pixel_image c xy = Except.error PyError.typeError := by
  unfold m_to_pixel_image originComp
  cases hco : c ConfigKey.origin with
  | pnone => simp
  | num q => simp
  | boolv b => simp
  | triple a b cc =>
      cases a with
      | pnone => simp [asNum]
      | num q => simp [asNum, h]
      | boolv bb => simp [asNum, h]
      | triple a2 b2 c2 => simp [asNum]

/-- Claim C2 (code evaluation at the failing input): with two agents at
world (0, 0) and (7, 9) and ego index 0, `update_obs` draws both vehicle
circles at agent 0's window position (100, 100) — the source indexes
`poses_x[0]`/`poses_y[0]` inside the loop — whereas agent 1's own pose maps
to window position (107, 109). Colors do differ: red for the ego circle,
green for the other. -/
theorem C2_all_agents_drawn_at_agent0_pose :
    update_obs readyState obs2 0 =
      ([DrawCmd.fill (0, 0, 0), DrawCmd.blitTrack readyRegion,
        DrawCmd.circle (255, 0, 0) (100, 100) 5,
        DrawCmd.circle (0, 255, 0) (100, 100) 5,
        DrawCmd.circle (0, 0, 255) (100, 100) 5,
        DrawCmd.lapText 1 0], none) ∧
    m_to_pixel_window readyState (7, 9) = Except.ok (107, 109) ∧
    ((107 : ℤ), (109 : ℤ)) ≠ ((100 : ℤ), (100 : ℤ)) := by
  have hr2 : List.range 2 = [0, 1] := rfl
  refine ⟨?_, ?_, by decide⟩
  · norm_num [update_obs, readyState, obs2, drawAgentsAux, hr2, listGet,
      m_to_pixel_window, readyConfig, asNum, pyDiv, pyInt,
      render_text_about_laps_and_time]
  · norm_num [m_to_pixel_window, readyState, readyConfig, asNum, pyDiv, pyInt]

/-- Counterexample to claim C6: with ego index 1 and lap times [3, 5], the
rendered lap time is `lap_times[0] = 3`, not `lap_times[ego_idx] = 5`. -/
theorem C6_counterexample :
    render_text_about_laps_and_time obs6 = Except.ok (3, 2) ∧
    obs6.lap_times.get? obs6.ego_idx = some 5 ∧
    (3 : ℚ) ≠ 5 := by
  refine ⟨?_, by simp [obs6], by norm_num⟩
  simp [render_text_about_laps_and_time, listGet, obs6]

/-- Amended claim C6: the text overlay shows agent 0's lap time — the
source formats `obs['lap_times'][0]` — together with the ego agent's lap
count `obs['lap_counts'][obs['ego_idx']]`. -/
theorem C6_amended_lap_time_is_agent0 (obs : Obs) (t c : ℚ)
    (h : render_text_about_laps_and_time obs = Except.ok (t, c)) :
    obs.lap_times.get? 0 = some t ∧
    obs.lap_counts.get? obs.ego_idx = some c := by
  unfold render_text_about_laps_and_time at h
  cases e1 : listGet obs.lap_times 0 with
  | error e => rw [e1] at h; simp at h
  | ok t1 =>
      rw [e1] at h
      cases e2 : listGet obs.lap_counts obs.ego_idx with
      | error e => rw [e2] at h; simp at h
      | ok c1 =>
          rw [e2] at h
          simp at h
          obtain ⟨h1, h2⟩ := h
          subst h1
          subst h2
          exact ⟨listGet_eq_ok e1, listGet_eq_ok e2⟩

/-- Witness for the amended claim C6, at the observation `obs6`. -/
theorem C6_witness :
    obs6.lap_times.get? 0 = some 3 ∧
    obs6.lap_counts.get? obs6.ego_idx = some 2 :=
  C6_amended_lap_time_is_agent0 obs6 3 2
    (by simp [render_text_about_laps_and_time, listGet, obs6])

/-- Counterexample to claim C7: with the image file missing, `update_map`
raises the untyped `ValueError` coming from `np.rot90(None)` — there is no
`MapLoadError` anywhere in the code. -/
theorem C7_counterexample :
    update_map (initRenderer 800 600) { image := none, yaml := some [] } =
      Except.error PyError.valueError ∧
    PyError.valueError ≠ PyError.mapLoadError :=
  ⟨rfl, by decide⟩

/-- Amended claim C7: `update_map` has no typed failures and no validation.
A missing or unreadable image makes `np.rot90` raise `ValueError` (since
`cv2.imread` returned `None`); a missing metadata file raises
`FileNotFoundError` from `open`; metadata missing the required `resolution`
field is not detected at load time — on a fresh renderer the stale `None`
config only surfaces later as a `TypeError` inside the focus conversion.
No `Ready`-state flag exists to be protected. -/
theorem C7_amended_untyped_failures :
    (∀ (s : RendererState) (files : MapFiles), files.image = none →
      update_map s files = Except.error PyError.valueError) ∧
    (∀ (s : RendererState) (files : MapFiles) (img : Image),
      files.image = some img → files.yaml = none →
      update_map s files = Except.error PyError.fileNotFoundError) ∧
    (∀ (w h : ℤ) (files : MapFiles) (img : Image)
      (y : List (ConfigKey × PyVal)),
      files.image = some img → files.yaml = some y →
      ConfigKey.resolution ∉ y.map Prod.fst →
      update_map (initRenderer w h) files = Except.error PyError.typeError) := by
  refine ⟨?_, ?_, ?_⟩
  · intro s files hi
    unfold update_map
    rw [hi]
    rfl
  · intro s files img hi hy
    unfold update_map
    rw [hi, hy]
    rfl
  · intro w h files img y hi hy hres
    unfold update_map
    rw [hi, hy]
    simp only [rot90k3, andThen_ok]
    unfold get_map_given_the_center_in_m
    rw [m_to_pixel_image_res_unset]
    · rfl
    · show updateConfig (initRenderer w h).image_config y ConfigKey.resolution
        = PyVal.pnone
      rw [updateConfig_not_mem _ _ _ hres]
      rfl

/-- Witness for the amended claim C7: its three cases at concrete inputs. -/
theorem C7_witness :
    update_map (initRenderer 800 600) { image := none, yaml := none } =
      Except.error PyError.valueError ∧
    update_map (initRenderer 800 600) { image := some ⟨40, 30⟩, yaml := none } =
      Except.error PyError.fileNotFoundError ∧
    update_map (initRenderer 800 600)
        { image := some ⟨40, 30⟩,
          yaml := some [(ConfigKey.negate, PyVal.num 0)] } =
      Except.error PyError.typeError :=
  ⟨C7_amended_untyped_failures.1 (initRenderer 800 600) _ rfl,
   C7_amended_untyped_failures.2.1 (initRenderer 800 600) _ ⟨40, 30⟩ rfl rfl,
   C7_amended_untyped_failures.2.2 800 600 _ ⟨40, 30⟩
     [(ConfigKey.negate, PyVal.num 0)] rfl rfl (by decide)⟩

/-- Counterexample to claim C8: in the unloaded state, `check_keys` with an
empty event queue silently succeeds (no `NotReadyError`), and `update_obs`
fails with a plain `TypeError` from blitting the `None` track surface. -/
theorem C8_counterexample :
    check_keys (initRenderer 800 600) [] =
      Except.ok (false, initRenderer 800 600) ∧
    (update_obs (initRenderer 800 600) obsE 0).2 = some PyError.typeError ∧
    PyError.typeError ≠ PyError.notReadyError :=
  ⟨rfl, rfl, by decide⟩

/-- Amended claim C8: no `NotReadyError` exists. Before any successful map
load, `update_obs` clears the screen and then raises `TypeError` from
`screen.blit(None, None)`; `check_keys` silently returns `False` when no
pan key is pending and raises `TypeError` (from `None - float` on the
unset focus) when one is. -/
theorem C8_amended_no_not_ready_error :
    (∀ (w h : ℤ) (obs : Obs) (ncb : ℕ),
      update_obs (initRenderer w h) obs ncb =
        ([DrawCmd.fill (0, 0, 0)], some PyError.typeError)) ∧
    (∀ w h : ℤ, check_keys (initRenderer w h) [] =
      Except.ok (false, initRenderer w h)) ∧
    (∀ w h : ℤ, check_keys (initRenderer w h) [Event.keyA] =
      Except.error PyError.typeError) :=
  ⟨fun _ _ _ _ => rfl, fun _ _ => rfl, fun _ _ => rfl⟩

/-- Counterexample to claim C9: in the ready state, `update_obs` on the
zero-agent observation does not complete — it raises `IndexError`. -/
theorem C9_counterexample :
    (update_obs readyState obsE 0).2 = some PyError.indexError ∧
    some PyError.indexError ≠ (none : Option PyError) :=
  ⟨rfl, by decide⟩

/-- Amended claim C9: with zero agents the map is blitted, the vehicle loop
draws nothing, and the blue origin marker is drawn — but rendering the
lap text then raises `IndexError` on `obs['lap_times'][0]`, so the frame
aborts instead of completing. -/
theorem C9_amended_zero_agents_index_error (s : RendererState) (r : Region)
    (obs : Obs) (ncb : ℕ)
    (hr : s.track_surf = some r) (hx : obs.poses_x = [])
    (ht : obs.lap_times = []) :
    update_obs s obs ncb =
      (DrawCmd.fill (0, 0, 0) :: DrawCmd.blitTrack r ::
         ((List.range ncb).map DrawCmd.callback ++
          [DrawCmd.circle (0, 0, 255) (s.half_width, s.half_height) 5]),
       some PyError.indexError) := by
  unfold update_obs
  rw [hr, hx]
  simp [drawAgentsAux, render_text_about_laps_and_time, ht, listGet]

/-- Witness for the amended claim C9, at the ready state and the
zero-agent observation. -/
theorem C9_witness :
    update_obs readyState obsE 0 =
      (DrawCmd.fill (0, 0, 0) :: DrawCmd.blitTrack readyRegion ::
         ((List.range 0).map DrawCmd.callback ++
          [DrawCmd.circle (0, 0, 255)
            (readyState.half_width, readyState.half_height) 5]),
       some PyError.indexError) :=
  C9_amended_zero_agents_index_error readyState readyRegion obsE 0 rfl rfl rfl

/-- Claim C10: a config key absent from the newly loaded yaml keeps the
value it had before the `update_map` call (in particular the value merged
in by an earlier load), whenever the call succeeds. -/
theorem C10_absent_yaml_keys_retained (s : RendererState) (files : MapFiles)
    (y : List (ConfigKey × PyVal)) (k : ConfigKey)
    (hy : files.yaml = some y) (hk : k ∉ y.map Prod.fst) :
    (update_map s files).toOption.map (fun s2 => s2.image_config k) =
      (update_map s files).toOption.map (fun _ => s.image_config k) := by
  cases h : update_map s files with
  | error e => rfl
  | ok s2 =>
      have hcfg := update_map_config s files y s2 hy h
      simp [Except.toOption, hcfg, updateConfig_not_mem _ _ _ hk]

/-- Witness for claim C10: a second load from `readyState` whose yaml sets
only `negate`; the `resolution` entry keeps its value. -/
theorem C10_witness :
    (update_map readyState mapFiles2).toOption.map
        (fun s2 => s2.image_config ConfigKey.resolution) =
      (update_map readyState mapFiles2).toOption.map
        (fun _ => readyState.image_config ConfigKey.resolution) :=
  C10_absent_yaml_keys_retained readyState mapFiles2
    [(ConfigKey.negate, PyVal.num 0)] ConfigKey.resolution rfl (by decide)

end F110Render
